import Mathlib

/-!
Shallow embedding of `src/Sutherlandsequation.py`, the computational core of a
Sutherland's-equation viscosity calculator: temperature conversion to the
Kelvin and Rankine absolute scales, Sutherland's viscosity formula, the
per-unit-system constant triples, the orchestrated single-point calculation,
and the 100-point linspace curve sampler.  Python floats are embedded as real
numbers; functions that raise `ValueError` on an unrecognized unit symbol
return `Option ℝ` with `none` for the error case.
-/

open Real

namespace Sutherland

noncomputable section

/-- SI reference temperature (Kelvin), `T_REF_SI = 323.0` in the source. -/
def T_REF_SI : ℝ := 323.0

/-- SI Sutherland constant, `S_SI = 110.0` in the source. -/
def S_SI : ℝ := 110.0

/-- SI reference viscosity, `V_REF_SI = 1.716e-5` in the source. -/
def V_REF_SI : ℝ := 1.716e-5

/-- USC reference temperature (Rankine), `T_REF_USC = 518.67` in the source. -/
def T_REF_USC : ℝ := 518.67

/-- USC Sutherland constant, `S_USC = 198.72` in the source. -/
def S_USC : ℝ := 198.72

/-- USC reference viscosity, `V_REF_USC = 3.737e-7` in the source. -/
def V_REF_USC : ℝ := 3.737e-7

/-- Embedding of `to_kelvin(value, unit)`: the if/elif chain keyed on the unit
symbol, with the `ValueError` arm embedded as `none`. -/
def to_kelvin (value : ℝ) (unit : String) : Option ℝ :=
  if unit = "C" then some (value + 273.15)
  else if unit = "F" then some ((value - 32) * 5 / 9 + 273.15)
  else if unit = "K" then some value
  else if unit = "R" then some (value * 5 / 9)
  else none

/-- Embedding of `to_rankine(value, unit)`: the if/elif chain keyed on the unit
symbol, with the `ValueError` arm embedded as `none`. -/
def to_rankine (value : ℝ) (unit : String) : Option ℝ :=
  if unit = "C" then some (value * 9 / 5 + 491.67)
  else if unit = "F" then some (value + 459.67)
  else if unit = "K" then some (value * 9 / 5)
  else if unit = "R" then some value
  else none

/-- Embedding of `sutherland_viscosity(temp, t_ref, s, v_ref)`:
`v_ref * (temp / t_ref) ** 1.5 * (t_ref + s) / (temp + s)`, with the Python
float power `** 1.5` embedded as the real power `Real.rpow`. -/
def sutherland_viscosity (temp t_ref s v_ref : ℝ) : ℝ :=
  v_ref * (temp / t_ref) ^ (1.5 : ℝ) * (t_ref + s) / (temp + s)

/-- Embedding of line 60 with Python's `ZeroDivisionError` points made
explicit: `temp / t_ref` raises when `t_ref = 0` and the final division
raises when `temp + s = 0`, so those inputs yield `none`; elsewhere the
formula's value is returned. -/
def sutherland_viscosityChecked (temp t_ref s v_ref : ℝ) : Option ℝ :=
  if t_ref = 0 then none
  else if temp + s = 0 then none
  else some (sutherland_viscosity temp t_ref s v_ref)

/-- The viscosity formula as the specification states it:
`refViscosity × (temp / refTemp)^1.5 × (refTemp + sutherlandConst) / (temp + sutherlandConst)`. -/
def specViscosityFormula (temp refTemp sutherlandConst refViscosity : ℝ) : ℝ :=
  refViscosity * (temp / refTemp) ^ (1.5 : ℝ) * (refTemp + sutherlandConst) /
    (temp + sutherlandConst)

/-- The two unit systems selectable in the sidebar. -/
inductive UnitSystem where
  | SI : UnitSystem
  | USC : UnitSystem
deriving DecidableEq

/-- Embedding of the orchestration in the calculate branch: convert the input
value to the canonical scale of the unit system and evaluate the viscosity at
it with that system's constant triple, propagating a conversion failure. -/
def calculate (us : UnitSystem) (unit : String) (value : ℝ) : Option (ℝ × ℝ) :=
  match us with
  | UnitSystem.SI =>
      (to_kelvin value unit).map
        (fun T => (T, sutherland_viscosity T T_REF_SI S_SI V_REF_SI))
  | UnitSystem.USC =>
      (to_rankine value unit).map
        (fun T => (T, sutherland_viscosity T T_REF_USC S_USC V_REF_USC))

/-- Embedding of `np.linspace(a, b, n)` as the code uses it: `n` points
`a + (b - a) * i / (n - 1)` for `i = 0, …, n - 1`. -/
def linspace (a b : ℝ) (n : ℕ) : List ℝ :=
  (List.range n).map (fun i : ℕ => a + (b - a) * (i : ℝ) / ((n : ℝ) - 1))

/-- Embedding of lines 100-101: `temps = np.linspace(base_temp, T, 100)` paired
with `mu = [sutherland_viscosity(t, …) for t in temps]`. -/
def curvePoints (a b t_ref s v_ref : ℝ) : List (ℝ × ℝ) :=
  (linspace a b 100).map (fun t => (t, sutherland_viscosity t t_ref s v_ref))

/-! Helper lemmas shared across the development. -/

/-- For a nonnegative real base, the real power `x ^ 1.5` factors as
`x * √x`. -/
lemma rpow_three_halves {x : ℝ} (hx : 0 ≤ x) : x ^ (1.5 : ℝ) = x * Real.sqrt x := by
  rcases hx.eq_or_lt with h | h
  · rw [← h, Real.sqrt_zero, mul_zero, Real.zero_rpow (by norm_num)]
  · have h15 : (1.5 : ℝ) = 1 + 1 / 2 := by norm_num
    rw [h15, Real.rpow_add h, Real.rpow_one, ← Real.sqrt_eq_rpow]

/-- `t * √t / (t + s)` is strictly increasing on positive `t` for positive `s`:
the core of the monotonicity of Sutherland's formula. -/
lemma mul_sqrt_div_add_strictMono (s t1 t2 : ℝ) (hs : 0 < s) (h1 : 0 < t1)
    (h12 : t1 < t2) :
    t1 * Real.sqrt t1 / (t1 + s) < t2 * Real.sqrt t2 / (t2 + s) := by
  have h2 : 0 < t2 := h1.trans h12
  rw [div_lt_div_iff₀ (by linarith) (by linarith)]
  have hs1 : Real.sqrt t1 < Real.sqrt t2 := Real.sqrt_lt_sqrt h1.le h12
  have h01 : 0 < Real.sqrt t1 := Real.sqrt_pos.mpr h1
  have hA : t1 * t2 * Real.sqrt t1 < t1 * t2 * Real.sqrt t2 :=
    mul_lt_mul_of_pos_left hs1 (mul_pos h1 h2)
  have hB : s * (t1 * Real.sqrt t1) < s * (t2 * Real.sqrt t2) :=
    mul_lt_mul_of_pos_left (mul_lt_mul'' h12 hs1 h1.le h01.le) hs
  nlinarith [hA, hB]

/-- Sutherland's formula written with the constant prefactor split off from the
temperature-dependent part `t * √t / (t + s)`. -/
lemma sutherland_viscosity_factored (t t_ref s v_ref : ℝ) (ht : 0 ≤ t)
    (htr : 0 < t_ref) (hts : t + s ≠ 0) :
    sutherland_viscosity t t_ref s v_ref =
      (v_ref * (t_ref + s) / (t_ref * Real.sqrt t_ref)) *
        (t * Real.sqrt t / (t + s)) := by
  unfold sutherland_viscosity
  rw [rpow_three_halves (div_nonneg ht htr.le), Real.sqrt_div ht]
  have h1 : t_ref ≠ 0 := htr.ne'
  have h2 : Real.sqrt t_ref ≠ 0 := (Real.sqrt_pos.mpr htr).ne'
  field_simp
  ring

/-- Evaluating the formula at the reference temperature cancels both the power
and the fraction, provided neither denominator vanishes. -/
lemma sutherland_viscosity_at_ref (t_ref s v_ref : ℝ) (h1 : t_ref ≠ 0)
    (h2 : t_ref + s ≠ 0) : sutherland_viscosity t_ref t_ref s v_ref = v_ref := by
  unfold sutherland_viscosity
  rw [div_self h1, Real.one_rpow, mul_one, mul_div_assoc, div_self h2, mul_one]

/-- At a vanishing reference temperature the embedded formula returns the junk
value `0` (the Python source instead raises `ZeroDivisionError` there when
`temp = 0`, and produces a complex power when `temp / t_ref < 0`): in neither
semantics does it return `v_ref` or order strictly. -/
lemma sutherland_viscosity_zero_ref (t v_ref s : ℝ) :
    sutherland_viscosity t 0 s v_ref = 0 := by
  simp only [sutherland_viscosity, div_zero]
  rw [Real.zero_rpow (by norm_num)]
  simp

/-- Lower bound on `√(288.15 / 323)`, the square-root factor of the SI
end-to-end scenario. -/
lemma si_scenario_sqrt_lb : (0.9445132 : ℝ) < Real.sqrt (288.15 / 323) := by
  rw [show (288.15 : ℝ) / 323 = 339 / 380 by norm_num]
  exact (Real.lt_sqrt (by norm_num)).mpr (by norm_num)

/-- Upper bound on `√(288.15 / 323)`, the square-root factor of the SI
end-to-end scenario. -/
lemma si_scenario_sqrt_ub : Real.sqrt (288.15 / 323) < 0.9445133 := by
  rw [show (288.15 : ℝ) / 323 = 339 / 380 by norm_num]
  exact (Real.sqrt_lt' (by norm_num)).mpr (by norm_num)

/-- The SI-scenario viscosity expressed through `√(288.15 / 323)`. -/
lemma si_scenario_viscosity_eq :
    sutherland_viscosity 288.15 T_REF_SI S_SI V_REF_SI =
      (1.716e-5 * (288.15 / 323) * (433 / 398.15)) * Real.sqrt (288.15 / 323) := by
  unfold sutherland_viscosity T_REF_SI S_SI V_REF_SI
  rw [rpow_three_halves (by norm_num)]
  ring_nf

/-! The claims. -/

/-- C1: for every real temperature and constants triple, `sutherland_viscosity`
returns exactly the specification's formula
`refViscosity * (temp / refTemp)^1.5 * (refTemp + sutherlandConst) / (temp + sutherlandConst)`,
as a hypothesis-free equation over the embedded real-valued function. -/
theorem sutherland_viscosity_eq_spec_formula (temp t_ref s v_ref : ℝ) :
    sutherland_viscosity temp t_ref s v_ref =
      specViscosityFormula temp t_ref s v_ref := rfl

/-- C2: `to_kelvin` maps unit `"C"` to `value + 273.15`, `"F"` to
`(value - 32) * 5/9 + 273.15`, `"K"` to `value` unchanged, and `"R"` to
`value * 5/9`. -/
theorem to_kelvin_cases (value : ℝ) :
    to_kelvin value "C" = some (value + 273.15) ∧
    to_kelvin value "F" = some ((value - 32) * 5 / 9 + 273.15) ∧
    to_kelvin value "K" = some value ∧
    to_kelvin value "R" = some (value * 5 / 9) := by
  refine ⟨?_, ?_, ?_, ?_⟩ <;> simp [to_kelvin]

/-- C3: `to_rankine` maps unit `"C"` to `value * 9/5 + 491.67`, `"F"` to
`value + 459.67`, `"K"` to `value * 9/5`, and `"R"` to `value` unchanged. -/
theorem to_rankine_cases (value : ℝ) :
    to_rankine value "C" = some (value * 9 / 5 + 491.67) ∧
    to_rankine value "F" = some (value + 459.67) ∧
    to_rankine value "K" = some (value * 9 / 5) ∧
    to_rankine value "R" = some value := by
  refine ⟨?_, ?_, ?_, ?_⟩ <;> simp [to_rankine]

/-- C4: each converter fails (returns `none`, the embedding of the raised
`ValueError`) exactly when the unit symbol is outside `{C, F, K, R}`; on a
recognized symbol a result is always produced, and on an unrecognized one no
default conversion is applied. -/
theorem converters_invalid_unit_iff (value : ℝ) (unit : String) :
    (to_kelvin value unit = none ↔ unit ∉ ["C", "F", "K", "R"]) ∧
    (to_rankine value unit = none ↔ unit ∉ ["C", "F", "K", "R"]) := by
  constructor <;>
  · simp only [to_kelvin, to_rankine, List.mem_cons, List.not_mem_nil]
    split_ifs <;> simp_all

/-- C5 counterexample: the SI end-to-end scenario (unit system SI, unit `"C"`,
value `15.0`) does convert the temperature to `288.15` K, but the viscosity
the code computes with the triple `(323.0, 110.0, 1.716e-5)` is more than
`2e-6` away from the claimed `1.7894e-5` — a 12% relative discrepancy, so it
is not approximately `1.7894e-5` in any tolerance consistent with the five
significant digits given. -/
theorem si_scenario_not_claimed_value :
    calculate UnitSystem.SI "C" 15 =
      some (288.15, sutherland_viscosity 288.15 T_REF_SI S_SI V_REF_SI) ∧
    2e-6 < |sutherland_viscosity 288.15 T_REF_SI S_SI V_REF_SI - 1.7894e-5| := by
  constructor
  · rw [show calculate UnitSystem.SI "C" 15 =
        (to_kelvin 15 "C").map
          (fun T => (T, sutherland_viscosity T T_REF_SI S_SI V_REF_SI)) from rfl]
    rw [show to_kelvin 15 "C" = some 288.15 by rw [to_kelvin]; norm_num]
    rfl
  · rw [si_scenario_viscosity_eq]
    have h1 := si_scenario_sqrt_lb
    have h2 := si_scenario_sqrt_ub
    rw [lt_abs]
    right
    nlinarith

/-- C5 amended: the SI end-to-end scenario (unit system SI, unit `"C"`, value
`15.0`) produces converted temperature `288.15` K and a viscosity within
`1e-9` of `1.5725e-5`, computed via the Sutherland formula with the SI
constants triple `(323.0, 110.0, 1.716e-5)`. -/
theorem si_scenario_values :
    calculate UnitSystem.SI "C" 15 =
      some (288.15, sutherland_viscosity 288.15 T_REF_SI S_SI V_REF_SI) ∧
    |sutherland_viscosity 288.15 T_REF_SI S_SI V_REF_SI - 1.5725e-5| < 1e-9 := by
  constructor
  · rw [show calculate UnitSystem.SI "C" 15 =
        (to_kelvin 15 "C").map
          (fun T => (T, sutherland_viscosity T T_REF_SI S_SI V_REF_SI)) from rfl]
    rw [show to_kelvin 15 "C" = some 288.15 by rw [to_kelvin]; norm_num]
    rfl
  · rw [si_scenario_viscosity_eq]
    have h1 := si_scenario_sqrt_lb
    have h2 := si_scenario_sqrt_ub
    rw [abs_lt]
    constructor <;> nlinarith

/-- C6 counterexample: the triple `(refTemp, s, vRef) = (0, 1, 1)` satisfies
the claim's only proviso `refTemp + s ≠ 0`, yet evaluating the embedded
formula at `temp = refTemp = 0` yields `0`, not `vRef = 1` (the Python source
raises `ZeroDivisionError` at this input instead of returning `vRef`). -/
theorem viscosity_at_zero_ref_ne_vref :
    (0 : ℝ) + 1 ≠ 0 ∧ sutherland_viscosity 0 0 1 1 ≠ 1 := by
  refine ⟨by norm_num, ?_⟩
  rw [sutherland_viscosity_zero_ref]
  norm_num

/-- C6 amended: for every constants triple with nonzero reference temperature
and `refTemp + s ≠ 0`, the viscosity at `temp = refTemp` is exactly the
reference viscosity; in particular the USC scenario (unit system USC, unit
`"R"`, value `518.67`) converts to `518.67` R and computes viscosity exactly
`3.737e-7 = V_REF_USC`. -/
theorem viscosity_at_ref_temp :
    (∀ t_ref s v_ref : ℝ, t_ref ≠ 0 → t_ref + s ≠ 0 →
        sutherland_viscosity t_ref t_ref s v_ref = v_ref) ∧
    calculate UnitSystem.USC "R" 518.67 = some (518.67, V_REF_USC) := by
  refine ⟨fun t_ref s v_ref h1 h2 => sutherland_viscosity_at_ref t_ref s v_ref h1 h2, ?_⟩
  have hR : to_rankine 518.67 "R" = some 518.67 := by simp [to_rankine]
  have hv : sutherland_viscosity 518.67 T_REF_USC S_USC V_REF_USC = V_REF_USC := by
    rw [show (518.67 : ℝ) = T_REF_USC from rfl]
    exact sutherland_viscosity_at_ref T_REF_USC S_USC V_REF_USC
      (by norm_num [T_REF_USC]) (by norm_num [T_REF_USC, S_USC])
  simp [calculate, hR, hv]

/-- C6 witness: the amended reference-point identity applied at the SI triple
`(323, 110, 1.716e-5)`, with both nonvanishing-denominator hypotheses
discharged numerically. -/
theorem viscosity_at_ref_temp_witness :
    sutherland_viscosity 323 323 110 1.716e-5 = 1.716e-5 :=
  viscosity_at_ref_temp.1 323 110 1.716e-5 (by norm_num) (by norm_num)

/-- C7 counterexample: the claim quantifies over every constants triple with
positive Sutherland constant and positive reference viscosity, but places no
condition on the reference temperature; at `t_ref = 0` (triple `(0, 1, 1)`,
temperatures `t1 = 1 < t2 = 2`) the embedded viscosity is `0` at both
temperatures, so it is not strictly increasing (the Python source produces a
complex power there rather than an ordered real result). -/
theorem viscosity_monotone_fails_without_pos_ref :
    ¬ (∀ t_ref s v_ref : ℝ, 0 < s → 0 < v_ref → ∀ t1 t2 : ℝ, 0 < t1 → t1 < t2 →
        sutherland_viscosity t1 t_ref s v_ref <
          sutherland_viscosity t2 t_ref s v_ref) := by
  intro h
  have h2 := h 0 1 1 one_pos one_pos 1 2 one_pos one_lt_two
  rw [sutherland_viscosity_zero_ref, sutherland_viscosity_zero_ref] at h2
  exact lt_irrefl 0 h2

/-- C7 amended: for every fixed constants triple with positive reference
temperature, positive Sutherland constant and positive reference viscosity,
the viscosity is strictly increasing in temperature over positive
temperatures: `0 < t1 < t2` implies `viscosity t1 < viscosity t2`. -/
theorem viscosity_strictMono (t_ref s v_ref : ℝ) (htr : 0 < t_ref) (hs : 0 < s)
    (hv : 0 < v_ref) (t1 t2 : ℝ) (h1 : 0 < t1) (h12 : t1 < t2) :
    sutherland_viscosity t1 t_ref s v_ref <
      sutherland_viscosity t2 t_ref s v_ref := by
  have h2 : 0 < t2 := h1.trans h12
  rw [sutherland_viscosity_factored t1 t_ref s v_ref h1.le htr (by positivity),
      sutherland_viscosity_factored t2 t_ref s v_ref h2.le htr (by positivity)]
  have hK : 0 < v_ref * (t_ref + s) / (t_ref * Real.sqrt t_ref) :=
    div_pos (mul_pos hv (by linarith)) (mul_pos htr (Real.sqrt_pos.mpr htr))
  exact mul_lt_mul_of_pos_left (mul_sqrt_div_add_strictMono s t1 t2 hs h1 h12) hK

/-- C7 witness: strict monotonicity applied to the SI triple
`(323, 110, 1.716e-5)` at the concrete temperatures `1 < 2`, every positivity
hypothesis discharged numerically. -/
theorem viscosity_strictMono_witness :
    sutherland_viscosity 1 323 110 1.716e-5 <
      sutherland_viscosity 2 323 110 1.716e-5 :=
  viscosity_strictMono 323 110 1.716e-5 (by norm_num) (by norm_num) (by norm_num)
    1 2 one_pos one_lt_two

/-- C8: the curve sampler produces exactly 100 points; the i-th sampled
temperature is `a + (b - a) * i / 99`, so the points are evenly spaced with
constant consecutive difference `(b - a) / 99`, the first temperature is
exactly `a` and the last exactly `b` — for any ordering of `a` and `b` — and
when `a = b` every sampled temperature coincides with it; pairing with the
viscosity keeps the count at 100. -/
theorem linspace_curve_spec (a b : ℝ) :
    (linspace a b 100).length = 100 ∧
    (linspace a b 100).head? = some a ∧
    (linspace a b 100).getLast? = some b ∧
    (∀ (i : ℕ) (h : i < (linspace a b 100).length),
        (linspace a b 100)[i] = a + (b - a) * i / 99) ∧
    (∀ (i : ℕ) (h1 : i < (linspace a b 100).length)
        (h2 : i + 1 < (linspace a b 100).length),
        (linspace a b 100)[i + 1] - (linspace a b 100)[i] = (b - a) / 99) ∧
    (a = b → ∀ x ∈ linspace a b 100, x = a) ∧
    (∀ t_ref s v_ref : ℝ, (curvePoints a b t_ref s v_ref).length = 100) := by
  refine ⟨?_, ?_, ?_, ?_, ?_, ?_, ?_⟩
  · rw [linspace, List.length_map, List.length_range]
  · rw [linspace, List.head?_map, show (List.range 100).head? = some 0 by decide]
    norm_num
  · rw [linspace, List.getLast?_map,
      show (List.range 100).getLast? = some 99 by decide]
    norm_num
  · intro i h
    simp only [linspace, List.getElem_map, List.getElem_range]
    norm_num
  · intro i h1 h2
    simp only [linspace, List.getElem_map, List.getElem_range]
    push_cast
    ring
  · rintro rfl x hx
    simp only [linspace, List.mem_map, List.mem_range] at hx
    obtain ⟨i, _, rfl⟩ := hx
    ring
  · intro t_ref s v_ref
    rw [curvePoints, List.length_map, linspace, List.length_map, List.length_range]

/-- C8 witness: the sampler's first and last temperatures at the concrete
boundaries `288.15` and `273.15` (the spec's scenario-3 interval). -/
theorem linspace_curve_spec_witness :
    (linspace 288.15 273.15 100).head? = some 288.15 ∧
    (linspace 288.15 273.15 100).getLast? = some 273.15 :=
  ⟨(linspace_curve_spec 288.15 273.15).2.1,
   (linspace_curve_spec 288.15 273.15).2.2.1⟩

/-- C9 counterexample: the claim's only proviso is `s ≠ 0`, so it covers the
triple `(t_ref, s, v_ref) = (0, 1, 1)`; there the source evaluates
`0.0 / 0.0` at `temp = 0` and raises `ZeroDivisionError` — embedded as
`none` — instead of returning `0`. -/
theorem viscosity_at_zero_temp_raises_at_zero_ref :
    (1 : ℝ) ≠ 0 ∧ sutherland_viscosityChecked 0 0 1 1 = none :=
  ⟨one_ne_zero, by rw [sutherland_viscosityChecked, if_pos rfl]⟩

/-- C9 amended: with a nonzero reference temperature (so `temp / t_ref` is
defined) and a nonzero Sutherland constant (so the denominator `0 + s` does
not vanish), the viscosity at temperature `0` is exactly `0`, because
`(0 / t_ref)^1.5 = 0` — both as the value of the formula and as the result
of the error-explicit evaluation. -/
theorem viscosity_at_zero_temp (t_ref s v_ref : ℝ) (htr : t_ref ≠ 0)
    (hs : s ≠ 0) :
    sutherland_viscosity 0 t_ref s v_ref = 0 ∧
    sutherland_viscosityChecked 0 t_ref s v_ref = some 0 := by
  have h0 : sutherland_viscosity 0 t_ref s v_ref = 0 := by
    unfold sutherland_viscosity
    rw [zero_div, Real.zero_rpow (by norm_num)]
    simp
  refine ⟨h0, ?_⟩
  rw [sutherland_viscosityChecked, if_neg htr, if_neg (by simpa using hs), h0]

/-- C9 witness: the zero-temperature identity at the SI triple, with the
nonzero-reference-temperature and nonzero-constant hypotheses discharged
numerically. -/
theorem viscosity_at_zero_temp_witness :
    sutherland_viscosity 0 323 110 1.716e-5 = 0 ∧
    sutherland_viscosityChecked 0 323 110 1.716e-5 = some 0 :=
  viscosity_at_zero_temp 323 110 1.716e-5 (by norm_num) (by norm_num)

/-- C10: converting a Kelvin value to Rankine and feeding the result back as
Rankine-to-Kelvin recovers the original value exactly, and symmetrically for
Rankine through Kelvin: the `9/5` and `5/9` factors are exact inverses in
real arithmetic. -/
theorem kelvin_rankine_roundtrip (x : ℝ) :
    (to_rankine x "K").bind (fun y => to_kelvin y "R") = some x ∧
    (to_kelvin x "R").bind (fun y => to_rankine y "K") = some x := by
  constructor <;> simp [to_kelvin, to_rankine]

end

end Sutherland
